import Mathlib

/-
Verification of the Riyadah voice-assistant audio/session core against its
specification.  The definitions below are a shallow embedding of the logic in
src/App.tsx and src/services/riyadahApi.ts (and, for the audio codec whose
source file src/utils/audio.ts is not among the provided sources, a model
taken from the specification text).  Times are rationals, the active
playback-source set is a finite set of source identifiers, and asynchronous
collaborator calls are functions returning Except values.
-/

namespace Riyadah

/-- ConnectionStatus from src/unnamed/part_000 (types.ts):
disconnected | connecting | connected | error. -/
inductive ConnectionStatus where
  | disconnected
  | connecting
  | connected
  | error
deriving DecidableEq, Repr

/-! ## Audio Playback Scheduler (src/App.tsx lines 96-124 and 186-210)

The mutable session state relevant to playback: nextStartTimeRef (a number,
here a rational), sourcesRef (a Set of AudioBufferSourceNode, here a Finset
of source identifiers) and the isSpeaking flag. -/

/-- The playback-relevant mutable state of the session:
nextStartTimeRef.current, sourcesRef.current, and the isSpeaking flag. -/
structure SchedulerState where
  nextStartTime : ℚ
  sources : Finset ℕ
  isSpeaking : Bool
deriving DecidableEq

/-- The audio-enqueue path of the onmessage handler (src/App.tsx lines
186-202): set isSpeaking, schedule the new buffer source at
max(nextStartTime, outputClock.currentTime), advance nextStartTime by the
buffer duration, and add the source to the active set.  Arguments: the
current state, the output-clock reading now, the decoded frame duration, and
a fresh identifier for the created source.  Returns the scheduled start time
together with the updated state. -/
def enqueueFrame (st : SchedulerState) (now duration : ℚ) (sid : ℕ) :
    ℚ × SchedulerState :=
  let start := max st.nextStartTime now
  (start,
    { nextStartTime := start + duration
      sources := insert sid st.sources
      isSpeaking := true })

/-- The interrupted branch of the onmessage handler (src/App.tsx lines
205-210): stop every source in the active set, clear the set, set
nextStartTimeRef.current to 0, and clear isSpeaking.  Returns the set of
sources that were stopped together with the updated state.  Note that the
code resets nextStartTime to the constant 0, not to the output-clock reading
(the handler never consults the clock). -/
def handleInterrupted (st : SchedulerState) : Finset ℕ × SchedulerState :=
  (st.sources, { nextStartTime := 0, sources := ∅, isSpeaking := false })

/-- The onended callback of a playback source (src/App.tsx lines 199-202):
remove the source from the active set and, if the set became empty, clear
isSpeaking. -/
def sourceEnded (st : SchedulerState) (sid : ℕ) : SchedulerState :=
  let remaining := st.sources.erase sid
  { st with
      sources := remaining
      isSpeaking := if remaining = ∅ then false else st.isSpeaking }

/-- C1: enqueuing three frames of durations d1, d2, d3 while the output clock
advances slower than playback (each clock reading stays at or below the end
of the already-scheduled audio) yields start times t, t + d1, t + d1 + d2
with t = max(nextStartTime, clock), monotonically non-decreasing, gapless and
non-overlapping, with nextStartTime advanced by each duration in turn. -/
theorem enqueue_gapless_schedule (st : SchedulerState) (c1 c2 c3 d1 d2 d3 : ℚ)
    (i1 i2 i3 : ℕ)
    (hd1 : 0 ≤ d1) (hd2 : 0 ≤ d2)
    (h2 : c2 ≤ max st.nextStartTime c1 + d1)
    (h3 : c3 ≤ max st.nextStartTime c1 + d1 + d2) :
    (enqueueFrame st c1 d1 i1).1 = max st.nextStartTime c1 ∧
    (enqueueFrame (enqueueFrame st c1 d1 i1).2 c2 d2 i2).1 =
      max st.nextStartTime c1 + d1 ∧
    (enqueueFrame (enqueueFrame (enqueueFrame st c1 d1 i1).2 c2 d2 i2).2
        c3 d3 i3).1 = max st.nextStartTime c1 + d1 + d2 ∧
    (enqueueFrame st c1 d1 i1).1 ≤
      (enqueueFrame (enqueueFrame st c1 d1 i1).2 c2 d2 i2).1 ∧
    (enqueueFrame (enqueueFrame st c1 d1 i1).2 c2 d2 i2).1 ≤
      (enqueueFrame (enqueueFrame (enqueueFrame st c1 d1 i1).2 c2 d2 i2).2
        c3 d3 i3).1 := by
  have e2 : max (max st.nextStartTime c1 + d1) c2 = max st.nextStartTime c1 + d1 :=
    max_eq_left h2
  have g1 : (enqueueFrame st c1 d1 i1).1 = max st.nextStartTime c1 := rfl
  have g2 : (enqueueFrame (enqueueFrame st c1 d1 i1).2 c2 d2 i2).1 =
      max (max st.nextStartTime c1 + d1) c2 := rfl
  have g3 : (enqueueFrame (enqueueFrame (enqueueFrame st c1 d1 i1).2 c2 d2 i2).2
      c3 d3 i3).1 = max (max (max st.nextStartTime c1 + d1) c2 + d2) c3 := rfl
  have e3 : max (max (max st.nextStartTime c1 + d1) c2 + d2) c3 =
      max st.nextStartTime c1 + d1 + d2 := by
    rw [e2]; exact max_eq_left h3
  refine ⟨g1, by rw [g2, e2], by rw [g3, e3], ?_, ?_⟩
  · rw [g1, g2, e2]; linarith
  · rw [g2, g3, e2, max_eq_left h3]; linarith

/-- Witness for enqueue_gapless_schedule at a concrete state and inputs. -/
theorem enqueue_gapless_schedule_witness :
    ((0 : ℚ) ≤ 2 ∧ (0 : ℚ) ≤ 3 ∧
      (1 : ℚ) ≤ max (0 : ℚ) 0 + 2 ∧ (2 : ℚ) ≤ max (0 : ℚ) 0 + 2 + 3) ∧
    ((enqueueFrame ⟨0, ∅, false⟩ 0 2 10).1 = max (0 : ℚ) 0 ∧
      (enqueueFrame (enqueueFrame ⟨0, ∅, false⟩ 0 2 10).2 1 3 11).1 =
        max (0 : ℚ) 0 + 2 ∧
      (enqueueFrame (enqueueFrame (enqueueFrame ⟨0, ∅, false⟩ 0 2 10).2
          1 3 11).2 2 4 12).1 = max (0 : ℚ) 0 + 2 + 3 ∧
      (enqueueFrame ⟨0, ∅, false⟩ 0 2 10).1 ≤
        (enqueueFrame (enqueueFrame ⟨0, ∅, false⟩ 0 2 10).2 1 3 11).1 ∧
      (enqueueFrame (enqueueFrame ⟨0, ∅, false⟩ 0 2 10).2 1 3 11).1 ≤
        (enqueueFrame (enqueueFrame (enqueueFrame ⟨0, ∅, false⟩ 0 2 10).2
          1 3 11).2 2 4 12).1) :=
  ⟨⟨by norm_num, by norm_num, by norm_num, by norm_num⟩,
    enqueue_gapless_schedule ⟨0, ∅, false⟩ 0 1 2 2 3 4 10 11 12
      (by norm_num) (by norm_num) (by norm_num) (by norm_num)⟩

/-- C2 counterexample: with the output clock at time 1 and one active source,
the interrupted handler resets nextStartTime to 0, not to the clock reading 1
(the handler at src/App.tsx lines 205-210 never consults the clock), so the
claim that interrupt resets nextStartTime to the current output-clock time
fails. -/
theorem interrupted_reset_counterexample :
    (handleInterrupted ⟨3, {0}, true⟩).2.nextStartTime = 0 ∧
    (handleInterrupted ⟨3, {0}, true⟩).2.nextStartTime ≠ (1 : ℚ) := by
  constructor
  · rfl
  · intro h
    exact absurd h (by norm_num [handleInterrupted])

/-- C2 amended: interrupt stops exactly the active sources (all N of them),
leaves the active set empty, and resets nextStartTime to 0 (not to the
output-clock reading); because enqueue schedules at max(nextStartTime, clock)
and the output clock is non-negative, a subsequent enqueue still schedules
its frame at the current clock reading rather than at the stale previous
nextStartTime; interrupt on an empty active set stops nothing and raises no
error. -/
theorem interrupt_amended (st : SchedulerState) (now d : ℚ) (sid : ℕ)
    (hnow : 0 ≤ now) :
    (handleInterrupted st).1 = st.sources ∧
    (handleInterrupted st).2.sources = ∅ ∧
    (handleInterrupted st).2.nextStartTime = 0 ∧
    (enqueueFrame (handleInterrupted st).2 now d sid).1 = now ∧
    (st.sources = ∅ → (handleInterrupted st).1 = ∅) := by
  refine ⟨rfl, rfl, rfl, ?_, fun h => h⟩
  show max (0 : ℚ) now = now
  exact max_eq_right hnow

/-- Witness for interrupt_amended at a concrete state and clock reading. -/
theorem interrupt_amended_witness :
    (0 : ℚ) ≤ 7 ∧
    ((handleInterrupted ⟨3, {0, 1}, true⟩).1 = ({0, 1} : Finset ℕ) ∧
      (handleInterrupted ⟨3, {0, 1}, true⟩).2.sources = ∅ ∧
      (handleInterrupted ⟨3, {0, 1}, true⟩).2.nextStartTime = 0 ∧
      (enqueueFrame (handleInterrupted ⟨3, {0, 1}, true⟩).2 7 2 5).1 = 7 ∧
      (({0, 1} : Finset ℕ) = ∅ → (handleInterrupted ⟨3, {0, 1}, true⟩).1 = ∅)) :=
  ⟨by norm_num, interrupt_amended ⟨3, {0, 1}, true⟩ 7 2 5 (by norm_num)⟩

/-- C7 counterexample: an interrupted event with an empty active set is not a
no-op on the session state: with nextStartTime = 5 and no active sources, the
handler still resets nextStartTime to 0, so the state changes. -/
theorem interrupted_idle_counterexample :
    (handleInterrupted ⟨5, ∅, false⟩).2 ≠ (⟨5, ∅, false⟩ : SchedulerState) := by
  intro h
  have : (handleInterrupted ⟨5, ∅, false⟩).2.nextStartTime = 5 := by rw [h]
  exact absurd this (by norm_num [handleInterrupted])

/-- C7 amended: an interrupted event while no audio is playing raises no
exception and stops no source, and the active set stays empty; however the
handler still resets nextStartTime to 0 and clears isSpeaking, so the state
is literally unchanged only when nextStartTime was already 0 and isSpeaking
already false. -/
theorem interrupted_idle_amended (st : SchedulerState) (h : st.sources = ∅) :
    (handleInterrupted st).1 = ∅ ∧
    (handleInterrupted st).2.sources = ∅ ∧
    (handleInterrupted st).2 = ⟨0, ∅, false⟩ ∧
    (st.nextStartTime = 0 → st.isSpeaking = false → (handleInterrupted st).2 = st) := by
  refine ⟨h, rfl, rfl, fun h0 hs => ?_⟩
  show (⟨0, ∅, false⟩ : SchedulerState) = st
  cases st with
  | mk n s b =>
    simp only at h h0 hs
    rw [h, h0, hs]

/-- Witness for interrupted_idle_amended at a concrete idle state. -/
theorem interrupted_idle_amended_witness :
    (SchedulerState.mk 5 ∅ false).sources = ∅ ∧
    ((handleInterrupted ⟨5, ∅, false⟩).1 = ∅ ∧
      (handleInterrupted ⟨5, ∅, false⟩).2.sources = ∅ ∧
      (handleInterrupted ⟨5, ∅, false⟩).2 = ⟨0, ∅, false⟩ ∧
      ((SchedulerState.mk 5 ∅ false).nextStartTime = 0 →
        (SchedulerState.mk 5 ∅ false).isSpeaking = false →
        (handleInterrupted ⟨5, ∅, false⟩).2 = ⟨5, ∅, false⟩)) :=
  ⟨rfl, interrupted_idle_amended ⟨5, ∅, false⟩ rfl⟩

/-! ## Tool Call Router (src/App.tsx lines 212-260)

The onmessage handler iterates over message.toolCall.functionCalls.  For each
function call it computes responseResult (initialised to the generic text
"Action successful."), dispatching on fc.name to one of four actions; any
exception thrown by a collaborator is caught and turned into the text
"Error: " followed by the message; finally exactly one functionResponse
carrying the same id and name is sent via sendToolResponse. -/

/-- The argument fields the four tool declarations use (all accessed as
strings in src/App.tsx lines 216-245). -/
structure ToolArgs where
  query : String
  name : String
  phone : String
  email : String
  datetime : String
  purpose : String
  type : String
  description : String
  interest : String
deriving DecidableEq

/-- A model-issued function call: id, name and arguments
(message.toolCall.functionCalls elements). -/
structure FunctionCall where
  id : String
  name : String
  args : ToolArgs
deriving DecidableEq

/-- One entry of the functionResponses array sent back via sendToolResponse
(src/App.tsx lines 251-259): id and name copied from the function call, plus
the response result text. -/
structure FunctionResponse where
  id : String
  name : String
  result : String
deriving DecidableEq

/-- The payload handed to submitSupportAction (src/services/riyadahApi.ts
lines 33-40). -/
structure SupportActionData where
  messageType : String
  actionDone : String
  clientName : String
  phone : String
  email : String
  topic : String
deriving DecidableEq

/-- The two external collaborators the router awaits.  A call either returns
normally (for the knowledge base, with its JSON payload already serialized to
a string) or throws an error carrying a message string. -/
structure Collaborators where
  queryKnowledgeBase : String → String → Except String String
  submitSupportAction : SupportActionData → Except String Unit

/-- The submitSupportAction payload built by the book_meeting branch
(src/App.tsx lines 220-227). -/
def bookMeetingPayload (a : ToolArgs) : SupportActionData :=
  { messageType := "Booking"
    actionDone := "Appointment Scheduled"
    clientName := a.name
    phone := a.phone
    email := a.email
    topic := "Purpose: " ++ a.purpose ++ ", Time: " ++ a.datetime }

/-- The submitSupportAction payload built by the create_support_ticket branch
(src/App.tsx lines 229-236). -/
def createTicketPayload (a : ToolArgs) : SupportActionData :=
  { messageType := "Support Ticket"
    actionDone := "Support Ticket Logged"
    clientName := a.name
    phone := a.phone
    email := a.email
    topic := a.type ++ ": " ++ a.description }

/-- The submitSupportAction payload built by the log_sales_interest branch
(src/App.tsx lines 238-245). -/
def salesInterestPayload (a : ToolArgs) : SupportActionData :=
  { messageType := "Sales Query"
    actionDone := "Sales info Delivered"
    clientName := a.name
    phone := a.phone
    email := a.email
    topic := "Interest in: " ++ a.interest }

/-- What the router did for one function call: the functionResponse it will
send, plus the collaborator calls it performed (knowledge-base queries as
(query, sessionId) pairs, and logging calls by their payload). -/
structure RouterOutcome where
  response : FunctionResponse
  kbCalls : List (String × String)
  logCalls : List SupportActionData
deriving DecidableEq

/-- The per-function-call body of the tool-call loop (src/App.tsx lines
213-249): responseResult starts as "Action successful.", the four recognized
names dispatch to their collaborator (query_knowledge_base passes through the
serialized response), a thrown collaborator error is caught and mapped to
"Error: " ++ message, and every other name falls through with the generic
success text and no external call. -/
def handleToolCall (c : Collaborators) (sessionId : String)
    (fc : FunctionCall) : RouterOutcome :=
  if fc.name = "query_knowledge_base" then
    match c.queryKnowledgeBase fc.args.query sessionId with
    | .ok res => ⟨⟨fc.id, fc.name, res⟩, [(fc.args.query, sessionId)], []⟩
    | .error e => ⟨⟨fc.id, fc.name, "Error: " ++ e⟩, [(fc.args.query, sessionId)], []⟩
  else if fc.name = "book_meeting" then
    match c.submitSupportAction (bookMeetingPayload fc.args) with
    | .ok _ => ⟨⟨fc.id, fc.name, "Action successful."⟩, [], [bookMeetingPayload fc.args]⟩
    | .error e => ⟨⟨fc.id, fc.name, "Error: " ++ e⟩, [], [bookMeetingPayload fc.args]⟩
  else if fc.name = "create_support_ticket" then
    match c.submitSupportAction (createTicketPayload fc.args) with
    | .ok _ => ⟨⟨fc.id, fc.name, "Action successful."⟩, [], [createTicketPayload fc.args]⟩
    | .error e => ⟨⟨fc.id, fc.name, "Error: " ++ e⟩, [], [createTicketPayload fc.args]⟩
  else if fc.name = "log_sales_interest" then
    match c.submitSupportAction (salesInterestPayload fc.args) with
    | .ok _ => ⟨⟨fc.id, fc.name, "Action successful."⟩, [], [salesInterestPayload fc.args]⟩
    | .error e => ⟨⟨fc.id, fc.name, "Error: " ++ e⟩, [], [salesInterestPayload fc.args]⟩
  else
    ⟨⟨fc.id, fc.name, "Action successful."⟩, [], []⟩

/-- The functionResponses array sent for one function call (src/App.tsx lines
251-259): a one-element list. -/
def sendToolResponse (o : RouterOutcome) : List FunctionResponse :=
  [o.response]

/-- C3: when the logging collaborator throws during create_support_ticket,
the router catches the error and the (single, still emitted) ToolResult text
is exactly "Error: " followed by the error message; the error is absorbed,
never propagated. -/
theorem ticket_collaborator_error_absorbed (c : Collaborators) (sid : String)
    (fc : FunctionCall) (m : String)
    (hname : fc.name = "create_support_ticket")
    (herr : c.submitSupportAction (createTicketPayload fc.args) = .error m) :
    (handleToolCall c sid fc).response.result = "Error: " ++ m ∧
    sendToolResponse (handleToolCall c sid fc) =
      [⟨fc.id, fc.name, "Error: " ++ m⟩] := by
  have h : handleToolCall c sid fc =
      ⟨⟨fc.id, fc.name, "Error: " ++ m⟩, [], [createTicketPayload fc.args]⟩ := by
    unfold handleToolCall
    rw [hname]
    simp only [String.reduceEq, if_false, if_true, reduceIte, herr]
  rw [h]
  exact ⟨rfl, rfl⟩

/-- Witness for ticket_collaborator_error_absorbed with a collaborator whose
logging call always throws "Failed to log action to system.". -/
theorem ticket_collaborator_error_absorbed_witness :
    (FunctionCall.mk "id7" "create_support_ticket"
        ⟨"", "Ana", "555", "a@b.c", "", "", "Support", "printer on fire", ""⟩).name =
      "create_support_ticket" ∧
    (Collaborators.mk (fun _ _ => .ok "{}")
          (fun _ => .error "Failed to log action to system.")).submitSupportAction
        (createTicketPayload
          ⟨"", "Ana", "555", "a@b.c", "", "", "Support", "printer on fire", ""⟩) =
      .error "Failed to log action to system." ∧
    (handleToolCall
        (Collaborators.mk (fun _ _ => .ok "{}")
          (fun _ => .error "Failed to log action to system.")) "sess_1"
        (FunctionCall.mk "id7" "create_support_ticket"
          ⟨"", "Ana", "555", "a@b.c", "", "", "Support", "printer on fire", ""⟩)
        ).response.result =
      "Error: " ++ "Failed to log action to system." :=
  ⟨rfl, rfl,
    (ticket_collaborator_error_absorbed
      (Collaborators.mk (fun _ _ => .ok "{}")
        (fun _ => .error "Failed to log action to system.")) "sess_1"
      (FunctionCall.mk "id7" "create_support_ticket"
        ⟨"", "Ana", "555", "a@b.c", "", "", "Support", "printer on fire", ""⟩)
      "Failed to log action to system." rfl rfl).1⟩

/-- C4: a book_meeting function call whose logging collaborator call
succeeds yields exactly one ToolResult carrying the same id and the success
text, and exactly one logging-collaborator call, whose action label is
"Appointment Scheduled" (and no knowledge-base call). -/
theorem book_meeting_one_result_one_log (c : Collaborators) (sid : String)
    (fc : FunctionCall)
    (hname : fc.name = "book_meeting")
    (hok : c.submitSupportAction (bookMeetingPayload fc.args) = .ok ()) :
    sendToolResponse (handleToolCall c sid fc) =
      [⟨fc.id, fc.name, "Action successful."⟩] ∧
    (handleToolCall c sid fc).logCalls = [bookMeetingPayload fc.args] ∧
    (bookMeetingPayload fc.args).actionDone = "Appointment Scheduled" ∧
    (handleToolCall c sid fc).kbCalls = [] := by
  have h : handleToolCall c sid fc =
      ⟨⟨fc.id, fc.name, "Action successful."⟩, [], [bookMeetingPayload fc.args]⟩ := by
    unfold handleToolCall
    rw [hname]
    simp only [String.reduceEq, if_false, if_true, reduceIte, hok]
  rw [h]
  exact ⟨rfl, rfl, rfl, rfl⟩

/-- Witness for book_meeting_one_result_one_log with a collaborator whose
logging call succeeds. -/
theorem book_meeting_one_result_one_log_witness :
    (FunctionCall.mk "id3" "book_meeting"
        ⟨"", "Bob", "777", "b@c.d", "Mon 10am", "demo", "", "", ""⟩).name =
      "book_meeting" ∧
    (Collaborators.mk (fun _ _ => .ok "{}")
          (fun _ => .ok ())).submitSupportAction
        (bookMeetingPayload
          ⟨"", "Bob", "777", "b@c.d", "Mon 10am", "demo", "", "", ""⟩) =
      .ok () ∧
    sendToolResponse
        (handleToolCall
          (Collaborators.mk (fun _ _ => .ok "{}") (fun _ => .ok ())) "sess_2"
          (FunctionCall.mk "id3" "book_meeting"
            ⟨"", "Bob", "777", "b@c.d", "Mon 10am", "demo", "", "", ""⟩)) =
      [⟨"id3", "book_meeting", "Action successful."⟩] :=
  ⟨rfl, rfl,
    (book_meeting_one_result_one_log
      (Collaborators.mk (fun _ _ => .ok "{}") (fun _ => .ok ())) "sess_2"
      (FunctionCall.mk "id3" "book_meeting"
        ⟨"", "Bob", "777", "b@c.d", "Mon 10am", "demo", "", "", ""⟩)
      rfl rfl).1⟩

/-- C5: a function call whose name is none of the four recognized action
names performs no collaborator call at all and yields exactly one ToolResult
with the same id carrying the generic success text. -/
theorem unknown_tool_name_generic_success (c : Collaborators) (sid : String)
    (fc : FunctionCall)
    (h1 : fc.name ≠ "query_knowledge_base")
    (h2 : fc.name ≠ "book_meeting")
    (h3 : fc.name ≠ "create_support_ticket")
    (h4 : fc.name ≠ "log_sales_interest") :
    (handleToolCall c sid fc).kbCalls = [] ∧
    (handleToolCall c sid fc).logCalls = [] ∧
    sendToolResponse (handleToolCall c sid fc) =
      [⟨fc.id, fc.name, "Action successful."⟩] := by
  have h : handleToolCall c sid fc =
      ⟨⟨fc.id, fc.name, "Action successful."⟩, [], []⟩ := by
    unfold handleToolCall
    rw [if_neg h1, if_neg h2, if_neg h3, if_neg h4]
  rw [h]
  exact ⟨rfl, rfl, rfl⟩

/-- Witness for unknown_tool_name_generic_success at the unrecognized name
"cancel_meeting". -/
theorem unknown_tool_name_generic_success_witness :
    ((FunctionCall.mk "id9" "cancel_meeting"
        ⟨"", "", "", "", "", "", "", "", ""⟩).name ≠ "query_knowledge_base" ∧
      (FunctionCall.mk "id9" "cancel_meeting"
        ⟨"", "", "", "", "", "", "", "", ""⟩).name ≠ "book_meeting" ∧
      (FunctionCall.mk "id9" "cancel_meeting"
        ⟨"", "", "", "", "", "", "", "", ""⟩).name ≠ "create_support_ticket" ∧
      (FunctionCall.mk "id9" "cancel_meeting"
        ⟨"", "", "", "", "", "", "", "", ""⟩).name ≠ "log_sales_interest") ∧
    sendToolResponse
        (handleToolCall
          (Collaborators.mk (fun _ _ => .ok "{}") (fun _ => .ok ())) "sess_3"
          (FunctionCall.mk "id9" "cancel_meeting"
            ⟨"", "", "", "", "", "", "", "", ""⟩)) =
      [⟨"id9", "cancel_meeting", "Action successful."⟩] :=
  ⟨⟨by decide, by decide, by decide, by decide⟩,
    (unknown_tool_name_generic_success
      (Collaborators.mk (fun _ _ => .ok "{}") (fun _ => .ok ())) "sess_3"
      (FunctionCall.mk "id9" "cancel_meeting"
        ⟨"", "", "", "", "", "", "", "", ""⟩)
      (by decide) (by decide) (by decide) (by decide)).2.2⟩

/-! ## submitSupportAction (src/services/riyadahApi.ts lines 33-75)

The wrapper builds a payload, performs one fetch with mode no-cors, and
returns \x7b status: 'success' \x7d without ever reading the response; its
catch block rethrows the fixed Error "Failed to log action to system.". -/

/-- The value submitSupportAction resolves with on the success path
(src/services/riyadahApi.ts line 70). -/
structure SubmitResult where
  status : String
deriving DecidableEq, Repr

/-- Browser contract of a fetch issued with mode no-cors (the mode used at
src/services/riyadahApi.ts line 63): the promise resolves with an opaque
response whenever the network round trip completes, regardless of the
server-side outcome (which is invisible to the caller), and rejects only on
network failure. -/
def noCorsFetch (networkOk : Bool) (_serverOutcome : Except String Unit) :
    Except String Unit :=
  if networkOk then .ok () else .error "Failed to fetch"

/-- submitSupportAction (src/services/riyadahApi.ts lines 33-75): await the
no-cors fetch; if it resolves, return \x7b status: 'success' \x7d without
inspecting the response; if it rejects, the catch block throws a fresh Error
with the fixed message "Failed to log action to system.". -/
def submitSupportActionRun (networkOk : Bool)
    (serverOutcome : Except String Unit) : Except String SubmitResult :=
  match noCorsFetch networkOk serverOutcome with
  | .ok _ => .ok ⟨"success"⟩
  | .error _ => .error "Failed to log action to system."

/-- C10: whenever the no-cors fetch resolves, submitSupportAction returns
status success regardless of the server-side outcome (the opaque response is
never inspected, so server failures are still reported as success), and it
throws "Failed to log action to system." exactly when the fetch itself
rejects. -/
theorem submit_support_action_opaque (serverOutcome : Except String Unit) :
    submitSupportActionRun true serverOutcome = .ok ⟨"success"⟩ ∧
    submitSupportActionRun false serverOutcome =
      .error "Failed to log action to system." :=
  ⟨rfl, rfl⟩

/-! ## Session Controller (src/App.tsx lines 89-144 and 279-342)

Two aspects are verified: the user-facing operation gating (the single
button dispatches cleanup, not connect, while connecting or connected, and is
disabled while connecting), with the resulting at-most-one-live-session
invariant; and the failure path of connect. -/

/-- What a click on the single UI button dispatches (src/App.tsx lines
318-320): cleanup when the status is connected or connecting, connect
otherwise; while connecting the button is disabled so the click does
nothing. -/
inductive ClickAction where
  | runCleanup
  | runConnect
  | disabled
deriving DecidableEq, Repr

/-- The onClick routing together with the disabled attribute of the button
(src/App.tsx lines 318-320). -/
def clickDispatch (status : ConnectionStatus) : ClickAction :=
  if status = ConnectionStatus.connecting then ClickAction.disabled
  else if status = ConnectionStatus.connected then ClickAction.runCleanup
  else ClickAction.runConnect

/-- Session-level state: the ConnectionStatus plus the number of live
SessionHandles (sessionRef holds at most one handle; it is counted here so
the at-most-one invariant can be stated). -/
structure AppState where
  status : ConnectionStatus
  liveHandles : ℕ
deriving DecidableEq, Repr

/-- The events that drive the session state: a click on the button, the
transport open resolving or rejecting, and a transport error or close after
connection. -/
inductive AppEvent where
  | click
  | openOk
  | openFail
  | transportError
  | transportClose
deriving DecidableEq, Repr

/-- State after cleanup (src/App.tsx lines 105-124): the session handle is
closed and nulled and the status returns to disconnected. -/
def cleanupState : AppState :=
  ⟨ConnectionStatus.disconnected, 0⟩

/-- One step of the session-controller state machine, following the handlers
in src/App.tsx: a click is routed by clickDispatch (connect first sets status
connecting; cleanup closes everything); a successful open (lines 170-171 and
278) sets status connected with one live handle; a failed open (lines
279-283) and transport error or close (lines 263-269) surface through the
catch or callback and run cleanup, ending disconnected with no live
handle. -/
def step (s : AppState) : AppEvent → AppState
  | AppEvent.click =>
      match clickDispatch s.status with
      | ClickAction.disabled => s
      | ClickAction.runCleanup => cleanupState
      | ClickAction.runConnect => ⟨ConnectionStatus.connecting, s.liveHandles⟩
  | AppEvent.openOk =>
      if s.status = ConnectionStatus.connecting then ⟨ConnectionStatus.connected, 1⟩
      else s
  | AppEvent.openFail =>
      if s.status = ConnectionStatus.connecting then cleanupState else s
  | AppEvent.transportError => cleanupState
  | AppEvent.transportClose => cleanupState

/-- The app starts disconnected with no live handle (src/App.tsx line 90 and
line 101). -/
def initialState : AppState :=
  ⟨ConnectionStatus.disconnected, 0⟩

/-- States reachable from the initial state by event steps. -/
inductive Reachable : AppState → Prop where
  | init : Reachable initialState
  | step (s : AppState) (e : AppEvent) : Reachable s → Reachable (step s e)

/-- Each event step keeps the live-handle count at most one. -/
lemma step_preserves_handles (s : AppState) (e : AppEvent)
    (h : s.liveHandles ≤ 1) : (step s e).liveHandles ≤ 1 := by
  cases e with
  | click =>
    show (match clickDispatch s.status with
      | ClickAction.disabled => s
      | ClickAction.runCleanup => cleanupState
      | ClickAction.runConnect =>
          AppState.mk ConnectionStatus.connecting s.liveHandles).liveHandles ≤ 1
    cases clickDispatch s.status with
    | disabled => exact h
    | runCleanup => exact Nat.zero_le 1
    | runConnect => exact h
  | openOk =>
    show (if s.status = ConnectionStatus.connecting
        then AppState.mk ConnectionStatus.connected 1 else s).liveHandles ≤ 1
    split
    · exact Nat.le_refl 1
    · exact h
  | openFail =>
    show (if s.status = ConnectionStatus.connecting
        then cleanupState else s).liveHandles ≤ 1
    split
    · exact Nat.zero_le 1
    · exact h
  | transportError => exact Nat.zero_le 1
  | transportClose => exact Nat.zero_le 1

/-- C8: while connecting or connected the exposed operation never dispatches
connect (the button is disabled while connecting and routes to cleanup while
connected), and consequently every reachable session state has at most one
live SessionHandle. -/
theorem at_most_one_session (s : AppState) (h : Reachable s) :
    s.liveHandles ≤ 1 ∧
    clickDispatch ConnectionStatus.connecting ≠ ClickAction.runConnect ∧
    clickDispatch ConnectionStatus.connected ≠ ClickAction.runConnect := by
  refine ⟨?_, by decide, by decide⟩
  induction h with
  | init => exact Nat.zero_le 1
  | step s e hs ih => exact step_preserves_handles s e ih

/-- Witness for at_most_one_session at a concrete reachable state: the state
reached by clicking once from the initial state. -/
theorem at_most_one_session_witness :
    Reachable (step initialState AppEvent.click) ∧
    ((step initialState AppEvent.click).liveHandles ≤ 1 ∧
      clickDispatch ConnectionStatus.connecting ≠ ClickAction.runConnect ∧
      clickDispatch ConnectionStatus.connected ≠ ClickAction.runConnect) :=
  ⟨Reachable.step initialState AppEvent.click Reachable.init,
    at_most_one_session (step initialState AppEvent.click)
      (Reachable.step initialState AppEvent.click Reachable.init)⟩

/-- Observable outcome of one run of connect() (src/App.tsx lines 126-284):
the successive setStatus values in order, the surfaced error message if any,
whether the Capture Pipeline (the script processor wired in onopen, lines
173-183) was started, and whether the transport ended up open. -/
structure ConnectOutcome where
  statusTrace : List ConnectionStatus
  errorMsg : Option String
  captureStarted : Bool
  transportOpen : Bool
deriving DecidableEq, Repr

/-- The error message surfaced by the catch block (src/App.tsx line 280):
err.message when non-empty, otherwise the fallback text (the JS expression
err.message || "Failed to establish voice session.", where the empty string
is falsy). -/
def connectErrorMsg (m : String) : String :=
  if m = "" then "Failed to establish voice session." else m

/-- One run of connect() (src/App.tsx lines 126-284) as a function of the
outcomes of its two fallible asynchronous steps: device acquisition
(getUserMedia, line 148) and transport open (ai.live.connect resolving and
onopen firing, lines 167-278).  Device acquisition happens first; if either
step throws, the catch block (lines 279-283) records the message, sets
status error, and runs cleanup (which sets status disconnected); the capture
pipeline is only started inside onopen, which fires only on a successful
open. -/
def connectRun (deviceAcq : Except String Unit)
    (transportAcq : Except String Unit) : ConnectOutcome :=
  match deviceAcq with
  | .error m =>
      { statusTrace := [ConnectionStatus.connecting, ConnectionStatus.error,
          ConnectionStatus.disconnected]
        errorMsg := some (connectErrorMsg m)
        captureStarted := false
        transportOpen := false }
  | .ok _ =>
      match transportAcq with
      | .error m =>
          { statusTrace := [ConnectionStatus.connecting, ConnectionStatus.error,
              ConnectionStatus.disconnected]
            errorMsg := some (connectErrorMsg m)
            captureStarted := false
            transportOpen := false }
      | .ok _ =>
          { statusTrace := [ConnectionStatus.connecting, ConnectionStatus.connected]
            errorMsg := none
            captureStarted := true
            transportOpen := true }

/-- C9: a connect() run whose device acquisition or transport open fails
leaves the Capture Pipeline un-started and the transport not open, passes
through the error status, and surfaces a user-facing error message. -/
theorem connect_failure_aborts (deviceAcq transportAcq : Except String Unit)
    (hfail : (∃ m, deviceAcq = .error m) ∨
      (deviceAcq = .ok () ∧ ∃ m, transportAcq = .error m)) :
    (connectRun deviceAcq transportAcq).captureStarted = false ∧
    (connectRun deviceAcq transportAcq).transportOpen = false ∧
    ConnectionStatus.error ∈ (connectRun deviceAcq transportAcq).statusTrace ∧
    (connectRun deviceAcq transportAcq).errorMsg.isSome = true := by
  rcases hfail with ⟨m, hm⟩ | ⟨hok, m, hm⟩
  · rw [hm]
    exact ⟨rfl, rfl, by simp [connectRun], rfl⟩
  · rw [hok, hm]
    exact ⟨rfl, rfl, by simp [connectRun], rfl⟩

/-- Witness for connect_failure_aborts at a concrete permission-denied
failure. -/
theorem connect_failure_aborts_witness :
    ((∃ m, (Except.error "Permission denied" : Except String Unit) = .error m) ∨
      ((Except.error "Permission denied" : Except String Unit) = .ok () ∧
        ∃ m, (Except.ok () : Except String Unit) = .error m)) ∧
    ((connectRun (.error "Permission denied") (.ok ())).captureStarted = false ∧
      (connectRun (.error "Permission denied") (.ok ())).transportOpen = false ∧
      ConnectionStatus.error ∈
        (connectRun (.error "Permission denied") (.ok ())).statusTrace ∧
      (connectRun (.error "Permission denied") (.ok ())).errorMsg.isSome = true) :=
  ⟨Or.inl ⟨"Permission denied", rfl⟩,
    connect_failure_aborts (.error "Permission denied") (.ok ())
      (Or.inl ⟨"Permission denied", rfl⟩)⟩

namespace Codec

/-! ## Audio Frame Codec

Modelled from the spec: the codec functions live in src/utils/audio.ts
(imported at src/App.tsx line 5 as decode, decodeAudioData, createPcmBlob),
a file not among the provided sources.  Following the specification text
(section 4.1): encode clamps each sample to [-1, 1], scales to the signed
16-bit integer range and serializes little-endian; decode performs the
inverse scaling back to floating point.  Samples are rationals, the wire
form is the list of bytes (the base64 text layer is a bijection on top of
the byte sequence and is not modelled); the playback path used by the app
(24 kHz mono, src/App.tsx line 189) needs no resampling. -/

/-- Modelled from the spec: clamp a sample to [-1, 1] before encoding. -/
def clampSample (s : ℚ) : ℚ :=
  max (-1) (min 1 s)

/-- Modelled from the spec: scale a clamped sample to the signed 16-bit
integer range (rounding to the nearest integer). -/
def encodeSample (s : ℚ) : ℤ :=
  round (clampSample s * 32767)

/-- Modelled from the spec: serialize a 16-bit integer sample little-endian
as two bytes (two's complement). -/
def sampleBytes (i : ℤ) : ℕ × ℕ :=
  ((i % 65536).toNat % 256, (i % 65536).toNat / 256)

/-- Modelled from the spec: encode a frame of samples as the little-endian
16-bit PCM byte sequence. -/
def encode (xs : List ℚ) : List ℕ :=
  xs.flatMap fun s => [(sampleBytes (encodeSample s)).1, (sampleBytes (encodeSample s)).2]

/-- Modelled from the spec: read one little-endian byte pair back as a
two's-complement 16-bit integer. -/
def decodeInt (lo hi : ℕ) : ℤ :=
  if lo + 256 * hi < 32768 then ((lo + 256 * hi : ℕ) : ℤ)
  else ((lo + 256 * hi : ℕ) : ℤ) - 65536

/-- Modelled from the spec: the inverse scaling of one 16-bit sample back to
floating point. -/
def decodeSamplePair (lo hi : ℕ) : ℚ :=
  (decodeInt lo hi : ℚ) / 32767

/-- Modelled from the spec: decode a byte sequence back into a frame of
samples, two bytes per sample. -/
def decode : List ℕ → List ℚ
  | lo :: hi :: rest => decodeSamplePair lo hi :: decode rest
  | _ => []

/-- The value a sample becomes after one encode-decode round trip. -/
def quantizeSample (s : ℚ) : ℚ :=
  (encodeSample s : ℚ) / 32767

/-- The clamped sample stays within [-1, 1]. -/
lemma clampSample_bounds (s : ℚ) : -1 ≤ clampSample s ∧ clampSample s ≤ 1 :=
  ⟨le_max_left _ _, max_le (by norm_num) (min_le_left 1 s)⟩

/-- The scaled, rounded sample stays within the signed 16-bit range. -/
lemma encodeSample_bounds (s : ℚ) :
    -32767 ≤ encodeSample s ∧ encodeSample s ≤ 32767 := by
  obtain ⟨h1, h2⟩ := clampSample_bounds s
  have hy1 : (-32767 : ℚ) ≤ clampSample s * 32767 := by nlinarith
  have hy2 : clampSample s * 32767 ≤ 32767 := by nlinarith
  constructor
  · rw [encodeSample, round_eq, Int.le_floor]
    push_cast
    linarith
  · rw [encodeSample, round_eq]
    have : (⌊clampSample s * 32767 + 1 / 2⌋ : ℤ) < 32768 := by
      rw [Int.floor_lt]
      push_cast
      linarith
    omega

/-- Little-endian serialization of an in-range 16-bit integer followed by
deserialization is the identity. -/
lemma decodeInt_sampleBytes (i : ℤ) (h1 : -32768 ≤ i) (h2 : i < 32768) :
    decodeInt (sampleBytes i).1 (sampleBytes i).2 = i := by
  simp only [sampleBytes, decodeInt]
  split <;> omega

/-- One encode-decode round trip of a sample equals its quantization. -/
lemma decodeSamplePair_encode (s : ℚ) :
    decodeSamplePair (sampleBytes (encodeSample s)).1
      (sampleBytes (encodeSample s)).2 = quantizeSample s := by
  obtain ⟨h1, h2⟩ := encodeSample_bounds s
  rw [decodeSamplePair, quantizeSample,
    decodeInt_sampleBytes (encodeSample s) (by omega) (by omega)]

/-- decode after encode quantizes each sample. -/
lemma decode_encode (xs : List ℚ) :
    decode (encode xs) = xs.map quantizeSample := by
  induction xs with
  | nil => rfl
  | cons x t ih =>
    show decodeSamplePair (sampleBytes (encodeSample x)).1
        (sampleBytes (encodeSample x)).2 :: decode (encode t) =
      quantizeSample x :: t.map quantizeSample
    rw [decodeSamplePair_encode, ih]

/-- On the 16-bit grid (samples of the form k / 32767 with |k| at most
32767) quantization is the identity. -/
lemma quantizeSample_grid (k : ℤ) (hk : k.natAbs ≤ 32767) :
    quantizeSample ((k : ℚ) / 32767) = (k : ℚ) / 32767 := by
  have hkq1 : (-32767 : ℚ) ≤ (k : ℚ) := by
    have : (-32767 : ℤ) ≤ k := by omega
    exact_mod_cast this
  have hkq2 : (k : ℚ) ≤ 32767 := by
    have : k ≤ (32767 : ℤ) := by omega
    exact_mod_cast this
  have hs1 : (-1 : ℚ) ≤ (k : ℚ) / 32767 := by
    rw [le_div_iff₀ (by norm_num : (0 : ℚ) < 32767)]
    linarith
  have hs2 : (k : ℚ) / 32767 ≤ 1 := by
    rw [div_le_one (by norm_num : (0 : ℚ) < 32767)]
    exact hkq2
  have hc : clampSample ((k : ℚ) / 32767) = (k : ℚ) / 32767 := by
    rw [clampSample, min_eq_right hs2, max_eq_right hs1]
  have hmul : (k : ℚ) / 32767 * 32767 = (k : ℚ) :=
    div_mul_cancel₀ _ (by norm_num)
  rw [quantizeSample, encodeSample, hc, hmul, round_intCast]

/-- Quantization moves a sample already in [-1, 1] by at most half a 16-bit
step. -/
lemma quantizeSample_error (s : ℚ) (h1 : -1 ≤ s) (h2 : s ≤ 1) :
    |quantizeSample s - s| ≤ 1 / 65534 := by
  have hc : clampSample s = s := by
    rw [clampSample, min_eq_right h2, max_eq_right h1]
  have hr := abs_le.mp (abs_sub_round (s * 32767))
  have hq : quantizeSample s - s =
      ((round (s * 32767) : ℚ) - s * 32767) / 32767 := by
    rw [quantizeSample, encodeSample, hc]
    ring
  rw [abs_le, hq]
  constructor <;> linarith [hr.1, hr.2]

/-- On the 16-bit grid the full round trip is the identity. -/
lemma map_quantize_grid (xs : List ℚ)
    (h : ∀ s ∈ xs, ∃ k : ℤ, k.natAbs ≤ 32767 ∧ s = (k : ℚ) / 32767) :
    xs.map quantizeSample = xs := by
  induction xs with
  | nil => rfl
  | cons x t ih =>
    obtain ⟨k, hk, hx⟩ := h x (List.mem_cons_self x t)
    show quantizeSample x :: t.map quantizeSample = x :: t
    rw [hx, quantizeSample_grid k hk,
      ih fun s hs => h s (List.mem_cons_of_mem x hs)]

/-- C6: for a frame of samples in [-1, 1], decode after encode reproduces
each sample within 16-bit quantization error (at most half a step of the
32767 grid), and the round trip is exact when every sample is an integer
16-bit value k / 32767. -/
theorem codec_roundtrip (xs : List ℚ) (hb : ∀ s ∈ xs, -1 ≤ s ∧ s ≤ 1) :
    decode (encode xs) = xs.map quantizeSample ∧
    (∀ s ∈ xs, |quantizeSample s - s| ≤ 1 / 65534) ∧
    ((∀ s ∈ xs, ∃ k : ℤ, k.natAbs ≤ 32767 ∧ s = (k : ℚ) / 32767) →
      decode (encode xs) = xs) := by
  refine ⟨decode_encode xs, ?_, ?_⟩
  · intro s hs
    exact quantizeSample_error s (hb s hs).1 (hb s hs).2
  · intro hgrid
    rw [decode_encode xs, map_quantize_grid xs hgrid]

/-- Witness for codec_roundtrip on the concrete frame
[0, 1, -1, 16384 / 32767]. -/
theorem codec_roundtrip_witness :
    (∀ s ∈ [(0 : ℚ), 1, -1, 16384 / 32767], -1 ≤ s ∧ s ≤ 1) ∧
    (decode (encode [(0 : ℚ), 1, -1, 16384 / 32767]) =
        [(0 : ℚ), 1, -1, 16384 / 32767].map quantizeSample ∧
      (∀ s ∈ [(0 : ℚ), 1, -1, 16384 / 32767],
        |quantizeSample s - s| ≤ 1 / 65534) ∧
      ((∀ s ∈ [(0 : ℚ), 1, -1, 16384 / 32767],
          ∃ k : ℤ, k.natAbs ≤ 32767 ∧ s = (k : ℚ) / 32767) →
        decode (encode [(0 : ℚ), 1, -1, 16384 / 32767]) =
          [(0 : ℚ), 1, -1, 16384 / 32767])) := by
  have hb : ∀ s ∈ [(0 : ℚ), 1, -1, 16384 / 32767], -1 ≤ s ∧ s ≤ 1 := by
    intro s hs
    simp only [List.mem_cons, List.not_mem_nil, or_false] at hs
    rcases hs with h | h | h | h <;> rw [h] <;> norm_num
  exact ⟨hb, codec_roundtrip [(0 : ℚ), 1, -1, 16384 / 32767] hb⟩

end Codec

end Riyadah
